import Mathlib

/-!
Verification of the content-module excerpts (Chromium 84.0.4147.139 fork).

This file gives a shallow embedding, in Lean 4, of the fragments of the
repository that the specification talks about:

* the DevTools background-services context
  (content/browser/devtools/devtools_background_services_context_impl.cc,
  with its header);
* the IndexedDB dispatcher host and its BlobDataItemReader implementation
  (content/browser/indexed_db/indexed_db_dispatcher_host.cc);
* the web-test URL rewriting helpers
  (content/shell/renderer/web_test/blink_test_helpers.cc);
* the service worker network provider for frames
  (content/renderer/service_worker/service_worker_network_provider_for_frame.cc);
* the child-process thread base class (content/child/child_thread_impl.h);
* the cookie-store subscription manager, whose implementation is not in the
  excerpts (only its unit tests are), and is therefore modelled from the
  specification.

C++ strings are modelled by Lean `String`; byte-prefix operations are modelled
on `String.data` (all the strings manipulated by the embedded code are ASCII,
so code units and characters coincide).  `base::Time` is modelled by the
number of microseconds since the Windows epoch, a `Nat`, with `0` standing for
the null (default-constructed) time.  Mojo pipes, task runners and other pure
plumbing values are modelled by opaque markers; posting a task to another
thread is modelled by applying its effect in sequence, and observer
notifications are collected into explicit effect lists.
-/

/-- Model of C++ `base::StartsWith(s, p, CompareCase::SENSITIVE)`: byte-wise
prefix test, via the code-unit lists of the two strings. -/
def strStartsWith (s p : String) : Bool :=
  p.data.isPrefixOf s.data

/-- Model of C++ `s.substr(n)` / `StringPiece::substr(n)`: drop the first `n`
bytes.  On the ASCII strings manipulated here bytes and characters agree. -/
def strDropBytes (s : String) (n : Nat) : String :=
  String.mk (s.data.drop n)

/-- Model of C++ `s.size()` for the ASCII strings manipulated here. -/
def strSize (s : String) : Nat :=
  s.data.length

theorem strData_append (a b : String) : (a ++ b).data = a.data ++ b.data := by
  cases a; cases b; rfl

theorem strStartsWith_append (p r : String) : strStartsWith (p ++ r) p = true := by
  simp [strStartsWith, strData_append, List.IsPrefix, List.prefix_append]

theorem strDropBytes_append (p r : String) :
    strDropBytes (p ++ r) (strSize p) = r := by
  cases p with
  | mk pd =>
    cases r with
    | mk rd => simp [strDropBytes, strSize, strData_append, List.drop_left]

namespace DevToolsBSC

/-- Proto enumeration `devtools::proto::BackgroundService`
(content/browser/devtools/devtools_background_services.pb.h; the numeric
values are the proto field numbers used by `base::NumberToString`). -/
inductive ProtoBackgroundService where
  | UNKNOWN
  | BACKGROUND_FETCH
  | BACKGROUND_SYNC
  | PUSH_MESSAGING
  | NOTIFICATIONS
  | PAYMENT_HANDLER
  | PERIODIC_BACKGROUND_SYNC
  deriving DecidableEq, Repr

/-- Numeric value of the proto enum member, as serialized by
`base::NumberToString` in `CreateEntryKeyPrefix`. -/
def ProtoBackgroundService.toNat : ProtoBackgroundService → Nat
  | .UNKNOWN => 0
  | .BACKGROUND_FETCH => 1
  | .BACKGROUND_SYNC => 2
  | .PUSH_MESSAGING => 3
  | .NOTIFICATIONS => 4
  | .PAYMENT_HANDLER => 5
  | .PERIODIC_BACKGROUND_SYNC => 6

/-- The public `DevToolsBackgroundService` enum
(content/public/browser/devtools_background_services_context.h). -/
inductive DevToolsBackgroundService where
  | kBackgroundFetch
  | kBackgroundSync
  | kPushMessaging
  | kNotifications
  | kPaymentHandler
  | kPeriodicBackgroundSync
  deriving DecidableEq, Repr

/-- Embedding of `ServiceToProtoEnum`
(devtools_background_services_context_impl.cc, anonymous namespace). -/
def serviceToProtoEnum : DevToolsBackgroundService → ProtoBackgroundService
  | .kBackgroundFetch => .BACKGROUND_FETCH
  | .kBackgroundSync => .BACKGROUND_SYNC
  | .kPushMessaging => .PUSH_MESSAGING
  | .kNotifications => .NOTIFICATIONS
  | .kPaymentHandler => .PAYMENT_HANDLER
  | .kPeriodicBackgroundSync => .PERIODIC_BACKGROUND_SYNC

/-- Embedding of the proto message `devtools::proto::BackgroundServiceEvent`,
with exactly the fields the logging code sets. -/
structure BackgroundServiceEvent where
  timestamp : Nat
  origin : String
  serviceWorkerRegistrationId : Nat
  backgroundService : ProtoBackgroundService
  eventName : String
  instanceId : String
  eventMetadata : List (String × String)
  deriving DecidableEq, Repr

/-- Modelled from the spec: the protobuf wire encoding of
`BackgroundServiceEvent` (its generated code is not part of the excerpts).
A stored value is either an opaque byte string that did not come from
`SerializeAsString` (constructor `raw`) or the serialization of a message
(constructor `proto`); `ParseFromString` succeeds exactly on serialized
messages and returns the original message. -/
inductive StoredValue where
  | raw (bytes : String)
  | proto (event : BackgroundServiceEvent)
  deriving DecidableEq, Repr

/-- Modelled from the spec: `BackgroundServiceEvent::SerializeAsString`. -/
def serializeAsString (event : BackgroundServiceEvent) : StoredValue :=
  .proto event

/-- Modelled from the spec: `BackgroundServiceEvent::ParseFromString`. -/
def parseFromString : StoredValue → Option BackgroundServiceEvent
  | .raw _ => none
  | .proto event => some event

/-- Embedding of `CreateEntryKeyPrefix` (devtools_background_services
context, anonymous namespace): `"devtools_background_services_" +
base::NumberToString(service) + "_"`. -/
def createEntryKeyStem (service : ProtoBackgroundService) : String :=
  "devtools_background_services_" ++ toString service.toNat ++ "_"

/-- Embedding of `CreateEntryKey`: the key stem followed by a GUID.  GUID
generation (`base::GenerateGUID`) is an external source of randomness and is
passed in as an argument. -/
def createEntryKey (service : ProtoBackgroundService) (guid : String) : String :=
  createEntryKeyStem service ++ guid

/-- One row of service worker registration user data, as stored through
`ServiceWorkerContextWrapper::StoreRegistrationUserData`. -/
structure UserDataEntry where
  registrationId : Nat
  key : String
  value : StoredValue
  deriving DecidableEq, Repr

/-- State of a `DevToolsBackgroundServicesContextImpl` together with the
service worker user-data store it writes through: `expiration_times_` maps a
service to its recording expiration time (`0` models the null `base::Time`),
and `userData` models the rows stored for service worker registrations. -/
structure ContextState where
  expirationTimes : ProtoBackgroundService → Nat
  userData : List UserDataEntry

/-- Observable side effects on the UI thread: observer notifications
dispatched by the context. -/
inductive Effect where
  | recordingStateChanged (shouldRecord : Bool) (service : ProtoBackgroundService)
  | eventReceived (event : BackgroundServiceEvent)
  deriving DecidableEq, Repr

/-- Embedding of `base::Time::is_null` on the microsecond model. -/
def timeIsNull (t : Nat) : Bool :=
  t = 0

/-- Embedding of `base::TimeDelta::FromDays(3)` in microseconds. -/
def threeDaysInMicroseconds : Nat :=
  3 * 24 * 60 * 60 * 1000000

/-- Embedding of `DevToolsBackgroundServicesContextImpl::IsRecording` (proto
enum overload): the service records iff its expiration time is not null. -/
def isRecording (st : ContextState) (service : ProtoBackgroundService) : Bool :=
  ! timeIsNull (st.expirationTimes service)

/-- Embedding of `DevToolsBackgroundServicesContextImpl::IsRecordingExpired`:
the expiration time is not null and lies strictly before the current time. -/
def isRecordingExpired (st : ContextState) (service : ProtoBackgroundService)
    (now : Nat) : Bool :=
  ! timeIsNull (st.expirationTimes service) && st.expirationTimes service < now

/-- Embedding of `DevToolsBackgroundServicesContextImpl::StartRecording`:
sets the expiration time to now plus three days and notifies the observers
that recording started.  The write-through to the browser client's pref store
(`UpdateDevToolsBackgroundServiceExpiration`) is outside the excerpts and is
not modelled. -/
def startRecording (st : ContextState) (now : Nat)
    (service : ProtoBackgroundService) : ContextState × List Effect :=
  ({ st with
      expirationTimes := fun s =>
        if s = service then now + threeDaysInMicroseconds
        else st.expirationTimes s },
    [Effect.recordingStateChanged true service])

/-- Embedding of `DevToolsBackgroundServicesContextImpl::StopRecording`:
sets the expiration time to the null time and notifies the observers. -/
def stopRecording (st : ContextState)
    (service : ProtoBackgroundService) : ContextState × List Effect :=
  ({ st with
      expirationTimes := fun s =>
        if s = service then 0 else st.expirationTimes s },
    [Effect.recordingStateChanged false service])

/-- Embedding of
`DevToolsBackgroundServicesContextImpl::OnRecordingTimeExpired`: stops
recording unless the state changed in the meanwhile. -/
def onRecordingTimeExpired (st : ContextState)
    (service : ProtoBackgroundService) (now : Nat) : ContextState × List Effect :=
  if isRecordingExpired st service now then stopRecording st service
  else (st, [])

/-- Embedding of
`ServiceWorkerContextWrapper::GetUserDataForAllRegistrationsByKeyPrefix` on
the in-memory user-data model: the `(registration id, value)` pairs of the
rows whose key starts with the given byte string. -/
def getUserDataForAllRegistrationsByKeyStem (st : ContextState)
    (stem : String) : List (Nat × StoredValue) :=
  (st.userData.filter (fun e => strStartsWith e.key stem)).map
    (fun e => (e.registrationId, e.value))

/-- Embedding of `ServiceWorkerContextWrapper::StoreRegistrationUserData` on
the in-memory user-data model: appends the given rows. -/
def storeRegistrationUserData (st : ContextState) (registrationId : Nat)
    (entries : List (String × StoredValue)) : ContextState :=
  { st with
      userData :=
        st.userData ++ entries.map (fun kv => UserDataEntry.mk registrationId kv.1 kv.2) }

/-- The `blink::ServiceWorkerStatusCode` values that the storage layer can
report (the excerpts only branch on `kOk` versus everything else). -/
inductive ServiceWorkerStatusCode where
  | kOk
  | kErrorFailed
  | kErrorAbort
  | kErrorNotFound
  | kErrorStorageDisconnected
  deriving DecidableEq, Repr

/-- Ordering used by the `std::sort` call in `DidGetUserData`: nondecreasing
event timestamp. -/
def timestampLE (a b : BackgroundServiceEvent) : Prop :=
  a.timestamp ≤ b.timestamp

instance : DecidableRel timestampLE := fun a b => Nat.decLe a.timestamp b.timestamp

instance : IsTotal BackgroundServiceEvent timestampLE :=
  ⟨fun a b => Nat.le_total a.timestamp b.timestamp⟩

instance : IsTrans BackgroundServiceEvent timestampLE :=
  ⟨fun _ _ _ hab hbc => Nat.le_trans hab hbc⟩

/-- The parsing loop of `DidGetUserData`: parses every row's value, stopping
with `none` (the loop's early `return` of the empty vector) at the first row
whose value does not parse as a `BackgroundServiceEvent`. -/
def parseAllEntries : List (Nat × StoredValue) →
    Option (List BackgroundServiceEvent)
  | [] => some []
  | d :: rest =>
    match parseFromString d.2 with
    | none => none
    | some event =>
      match parseAllEntries rest with
      | none => none
      | some events => some (event :: events)

/-- Embedding of `DevToolsBackgroundServicesContextImpl::DidGetUserData`: on
a non-`kOk` status the callback receives the empty vector; if any row fails
to parse the callback receives the empty vector; otherwise the parsed events
are sorted by timestamp.  `std::sort` is unstable, so any sorted permutation
is a faithful model; insertion sort is used here. -/
def didGetUserData (userData : List (Nat × StoredValue))
    (status : ServiceWorkerStatusCode) : List BackgroundServiceEvent :=
  if status ≠ ServiceWorkerStatusCode.kOk then []
  else
    match parseAllEntries userData with
    | none => []
    | some events => List.insertionSort timestampLE events

/-- Embedding of
`DevToolsBackgroundServicesContextImpl::GetLoggedBackgroundServiceEvents`
(through its core-thread part): reads all user data with the service's key
stem and hands it to `DidGetUserData`.  The in-memory store always reads
back successfully, hence status `kOk`. -/
def getLoggedBackgroundServiceEvents (st : ContextState)
    (service : ProtoBackgroundService) : List BackgroundServiceEvent :=
  didGetUserData
    (getUserDataForAllRegistrationsByKeyStem st (createEntryKeyStem service))
    ServiceWorkerStatusCode.kOk

/-- Embedding of
`DevToolsBackgroundServicesContextImpl::LogBackgroundServiceEventOnCoreThread`.
Returns the state after the call together with the UI-thread effects it
posts.  When the service is not recording nothing happens; when the
recording window has expired the posted `OnRecordingTimeExpired` task runs
(stopping the recording) and no event is stored; otherwise the event is
built from the arguments (timestamp `now`), stored under a fresh entry key,
and `NotifyEventObservers` is posted. -/
def logBackgroundServiceEventOnCoreThread (st : ContextState) (now : Nat)
    (guid : String) (serviceWorkerRegistrationId : Nat) (origin : String)
    (service : DevToolsBackgroundService) (eventName instanceId : String)
    (eventMetadata : List (String × String)) : ContextState × List Effect :=
  if ! isRecording st (serviceToProtoEnum service) then (st, [])
  else if isRecordingExpired st (serviceToProtoEnum service) now then
    onRecordingTimeExpired st (serviceToProtoEnum service) now
  else
    let event : BackgroundServiceEvent :=
      { timestamp := now
        origin := origin
        serviceWorkerRegistrationId := serviceWorkerRegistrationId
        backgroundService := serviceToProtoEnum service
        eventName := eventName
        instanceId := instanceId
        eventMetadata := eventMetadata }
    (storeRegistrationUserData st serviceWorkerRegistrationId
        [(createEntryKey event.backgroundService guid, serializeAsString event)],
      [Effect.eventReceived event])

end DevToolsBSC

namespace DevToolsBSC

/-- The Chromium threads and sequences named by the excerpts. -/
inductive ChromeThread where
  | ui
  | serviceWorkerCore
  | idbSequence
  deriving DecidableEq, Repr

/-- The methods of `DevToolsBackgroundServicesContextImpl` (and the helper
callbacks in its anonymous namespace) that carry a thread assertion. -/
inductive ContextOp where
  | startRecording
  | stopRecording
  | isRecording
  | getLoggedBackgroundServiceEvents
  | getLoggedBackgroundServiceEventsOnCoreThread
  | didGetUserData
  | clearLoggedBackgroundServiceEvents
  | clearLoggedBackgroundServiceEventsOnCoreThread
  | logBackgroundServiceEvent
  | logBackgroundServiceEventOnCoreThread
  | notifyEventObservers
  | onRecordingTimeExpired
  | didLogServiceEvent
  | didClearServiceEvents
  deriving DecidableEq, Repr

/-- The thread each method asserts with `DCHECK_CURRENTLY_ON` at its head in
devtools_background_services_context_impl.cc (`IsRecording` carries no
assertion and is callable from either thread; it is listed with the thread of
its only in-file callers for completeness of the table, namely the core
thread logging path). -/
def dcheckCurrentlyOn : ContextOp → ChromeThread
  | .startRecording => .ui
  | .stopRecording => .ui
  | .isRecording => .serviceWorkerCore
  | .getLoggedBackgroundServiceEvents => .ui
  | .getLoggedBackgroundServiceEventsOnCoreThread => .serviceWorkerCore
  | .didGetUserData => .serviceWorkerCore
  | .clearLoggedBackgroundServiceEvents => .ui
  | .clearLoggedBackgroundServiceEventsOnCoreThread => .serviceWorkerCore
  | .logBackgroundServiceEvent => .ui
  | .logBackgroundServiceEventOnCoreThread => .serviceWorkerCore
  | .notifyEventObservers => .ui
  | .onRecordingTimeExpired => .ui
  | .didLogServiceEvent => .serviceWorkerCore
  | .didClearServiceEvents => .serviceWorkerCore

/-- The operations of the context that touch the persisted-event store
(`StoreRegistrationUserData`, `GetUserDataForAllRegistrationsByKeyPrefix`,
`ClearUserDataForAllRegistrationsByKeyPrefix` call sites and their
completion callbacks). -/
def touchesEventStorage : ContextOp → Bool
  | .getLoggedBackgroundServiceEventsOnCoreThread => true
  | .didGetUserData => true
  | .clearLoggedBackgroundServiceEventsOnCoreThread => true
  | .logBackgroundServiceEventOnCoreThread => true
  | .didLogServiceEvent => true
  | .didClearServiceEvents => true
  | _ => false

end DevToolsBSC

namespace IDB

/-- The result codes of `leveldb::Status` (third_party leveldb `Code` enum);
`GetIndexedDBStatus` branches on the five named predicates and sends every
remaining status to the IO-error bucket. -/
inductive LevelDBStatus where
  | kOk
  | kNotFound
  | kCorruption
  | kNotSupported
  | kInvalidArgument
  | kIOError
  deriving DecidableEq, Repr

/-- Embedding of `leveldb::Status::ok`. -/
def LevelDBStatus.ok (s : LevelDBStatus) : Bool := s = .kOk

/-- Embedding of `leveldb::Status::IsNotFound`. -/
def LevelDBStatus.isNotFound (s : LevelDBStatus) : Bool := s = .kNotFound

/-- Embedding of `leveldb::Status::IsCorruption`. -/
def LevelDBStatus.isCorruption (s : LevelDBStatus) : Bool := s = .kCorruption

/-- Embedding of `leveldb::Status::IsNotSupportedError`. -/
def LevelDBStatus.isNotSupportedError (s : LevelDBStatus) : Bool := s = .kNotSupported

/-- Embedding of `leveldb::Status::IsInvalidArgument`. -/
def LevelDBStatus.isInvalidArgument (s : LevelDBStatus) : Bool := s = .kInvalidArgument

/-- The `blink::mojom::IDBStatus` enum. -/
inductive IDBStatus where
  | OK
  | NotFound
  | Corruption
  | NotSupported
  | InvalidArgument
  | IOError
  deriving DecidableEq, Repr

/-- Embedding of `GetIndexedDBStatus`
(indexed_db_dispatcher_host.cc, anonymous namespace): the if/else-if chain
over the leveldb status predicates. -/
def getIndexedDBStatus (status : LevelDBStatus) : IDBStatus :=
  if status.ok then .OK
  else if status.isNotFound then .NotFound
  else if status.isCorruption then .Corruption
  else if status.isNotSupportedError then .NotSupported
  else if status.isInvalidArgument then .InvalidArgument
  else .IOError

/-- Embedding of `CallCompactionStatusCallbackOnIDBThread`: the status the
`AbortTransactionsAndCompactDatabase` mojo callback reports for a given
backend result. -/
def callCompactionStatusCallbackOnIDBThread (status : LevelDBStatus) : IDBStatus :=
  getIndexedDBStatus status

/-- Embedding of `CallAbortStatusCallbackOnIDBThread`: the status the
`AbortTransactionsForDatabase` mojo callback reports for a given backend
result. -/
def callAbortStatusCallbackOnIDBThread (status : LevelDBStatus) : IDBStatus :=
  getIndexedDBStatus status

/-- The `storage::mojom::BlobDataItemType` tag carried by a registered blob
data item.  Modelled from the spec: the mojom declaration is not in the
excerpts; the spec names cache-storage and IndexedDB as candidate owning
subsystems, and the dispatcher host writes the `kIndexedDB` member. -/
inductive BlobDataItemType where
  | kUnknown
  | kIndexedDB
  | kCacheStorage
  deriving DecidableEq, Repr

/-- The `IndexedDBExternalObject::ObjectType` tag. -/
inductive ExternalObjectType where
  | kBlob
  | kFile
  | kNativeFileSystemHandle
  deriving DecidableEq, Repr

/-- The slice of `IndexedDBExternalObject` that
`IndexedDBDispatcherHost::CreateAllExternalObjects` reads in its blob/file
branch. -/
structure IndexedDBExternalObject where
  objectType : ExternalObjectType
  size : Nat
  contentType : String
  isRemoteValid : Bool
  uuid : String
  indexedDBFilePath : String
  lastModified : Nat
  deriving DecidableEq, Repr

/-- The `storage::mojom::BlobDataItem` fields that
`CreateAllExternalObjects` fills in for a blob whose remote is not valid
(before handing the item's reader end to `BindFileReader` and registering
it with the blob storage context). -/
structure BlobDataItem where
  size : Nat
  sideDataSize : Nat
  contentType : String
  itemType : BlobDataItemType
  readerFilePath : String
  deriving DecidableEq, Repr

/-- Embedding of the blob branch of
`IndexedDBDispatcherHost::CreateAllExternalObjects`: the
`storage::mojom::BlobDataItem` built for an external object whose blob
remote is not valid.  Its reader is an `IndexedDBDataItemReader` bound to
the object's IndexedDB file path, and its type tag is
`BlobDataItemType::kIndexedDB` (indexed_db_dispatcher_host.cc). -/
def createBlobDataItem (blobInfo : IndexedDBExternalObject) : BlobDataItem :=
  { size := blobInfo.size
    sideDataSize := 0
    contentType := blobInfo.contentType
    itemType := BlobDataItemType.kIndexedDB
    readerFilePath := blobInfo.indexedDBFilePath }

/-- The `IndexedDBDispatcherHost` methods bearing
`DCHECK_CALLED_ON_VALID_SEQUENCE(sequence_checker_)` (the sequence checker is
bound to the IDB sequence; `AddReceiver` additionally asserts
`IDBTaskRunner()->RunsTasksInCurrentSequence()`). -/
inductive DispatcherHostOp where
  | addReceiver
  | addDatabaseBinding
  | createCursorBinding
  | addTransactionBinding
  | getDatabaseInfo
  | getDatabaseNames
  | open
  | deleteDatabase
  | abortTransactionsAndCompactDatabase
  | abortTransactionsForDatabase
  | createAndBindTransactionImpl
  | bindFileReader
  | removeBoundReaders
  | createAllExternalObjects
  | invalidateWeakPtrsAndClearBindings
  deriving DecidableEq, Repr

/-- The sequence each dispatcher-host method asserts: all of them check the
IDB sequence checker. -/
def dispatcherHostSequence : DispatcherHostOp → DevToolsBSC.ChromeThread :=
  fun _ => DevToolsBSC.ChromeThread.idbSequence

end IDB

namespace WebTestHelpers

/-- Helper for the model of `std::string::find`: does the needle occur as a
contiguous segment of the haystack? -/
def containsSeg (needle : List Char) : List Char → Bool
  | [] => needle.isEmpty
  | c :: t => needle.isPrefixOf (c :: t) || containsSeg needle t

/-- Model of C++ `utf8_url.find(sub) != std::string::npos`. -/
def strContains (s sub : String) : Bool :=
  containsSeg sub.data s.data

/-- Embedding of `base::FilePath::Append` / `AppendASCII` on the string model
of paths: inserts a separator unless the directory already ends in one. -/
def filePathAppend (dir rel : String) : String :=
  if dir.data.getLast? = some '/' then dir ++ rel else dir ++ "/" ++ rel

/-- Embedding of `GetWebTestsFilePath` (blink_test_helpers.cc): the source
root (`base::DIR_SOURCE_ROOT`, an environment parameter here) with
`third_party/blink/web_tests/` appended. -/
def getWebTestsFilePath (sourceRoot : String) : String :=
  filePathAppend sourceRoot "third_party/blink/web_tests/"

/-- Embedding of `net::FilePathToFileURL` on the string model: a `file://`
URL for an absolute path. -/
def filePathToFileURL (path : String) : String :=
  "file://" ++ path

/-- Embedding of `RewriteAbsolutePathInCsswgTest` (blink_test_helpers.cc,
non-Windows branch): `none` models the empty `WebURL()`. -/
def rewriteAbsolutePathInCsswgTest (sourceRoot : String) (utf8Url : String) :
    Option String :=
  if ! strStartsWith utf8Url "file:///" then none
  else if strContains utf8Url "/web_tests/" then none
  else
    let path := strDropBytes utf8Url (strSize "file:///")
    some (filePathToFileURL (filePathAppend (getWebTestsFilePath sourceRoot) path))

/-- Embedding of `RewriteWebTestsURL` (blink_test_helpers.cc).  `sourceRoot`
and `buildDir` are the `base::PathService` results for the source root and
the build directory; `GURL` construction on an already well-formed URL
string is modelled as the string itself. -/
def rewriteWebTestsURL (sourceRoot buildDir : String) (utf8Url : String)
    (isWptMode : Bool) : String :=
  if isWptMode then
    match rewriteAbsolutePathInCsswgTest sourceRoot utf8Url with
    | some rewritten => rewritten
    | none => utf8Url
  else if strStartsWith utf8Url "file:///gen/" then
    let genDirectoryPath := filePathAppend buildDir "gen/"
    "file://" ++ genDirectoryPath ++ strDropBytes utf8Url (strSize "file:///gen/")
  else if ! strStartsWith utf8Url "file:///tmp/web_tests/" then utf8Url
  else
    "file://" ++ getWebTestsFilePath sourceRoot ++
      strDropBytes utf8Url (strSize "file:///tmp/web_tests/")

end WebTestHelpers

namespace SWNetProvider

/-- The `blink::mojom::ControllerServiceWorkerMode` enum. -/
inductive ControllerServiceWorkerMode where
  | kNoController
  | kControlled
  deriving DecidableEq, Repr

/-- Constant `blink::mojom::kInvalidServiceWorkerVersionId`. -/
def kInvalidServiceWorkerVersionId : Int := -1

/-- The slice of `ServiceWorkerProviderContext` that
`ServiceWorkerNetworkProviderForFrame` reads: controller state, the
subresource loader factory, the fetch window id, and the pending worker
timing receivers (a pipe handle is modelled by a `Nat` token). -/
structure ProviderContext where
  controllerMode : ControllerServiceWorkerMode
  controllerVersionId : Int
  fetchRequestWindowId : Nat
  hasSubresourceLoaderFactory : Bool
  pendingWorkerTimingReceivers : Int → Option Nat

/-- The slice of `blink::WebURLRequest` the provider inspects, together with
the fetch window id `WillSendRequest` may inject. -/
structure WebURLRequest where
  schemeIsHTTPOrHTTPS : Bool
  originCanAccessServiceWorkers : Bool
  skipServiceWorker : Bool
  keepalive : Bool
  isFromOriginDirtyStyleSheet : Bool
  fetchWindowId : Option Nat
  deriving DecidableEq, Repr

/-- Marker for a `WebURLLoaderImpl` created by `CreateURLLoader`. -/
structure WebURLLoader where
  usesSubresourceLoaderFactory : Bool
  deriving DecidableEq, Repr

/-- Calls the provider forwards into its context. -/
inductive ContextCall where
  | dispatchNetworkQuiet
  | notifyExecutionReady
  deriving DecidableEq, Repr

/-- State of a `ServiceWorkerNetworkProviderForFrame`: the context (absent
for an invalid instance) and whether the frame observer exists (it is
created only when a frame is passed to the constructor). -/
structure Provider where
  context : Option ProviderContext
  hasObserver : Bool

/-- Embedding of `ServiceWorkerNetworkProviderForFrame::CreateInvalidInstance`:
built with a null frame, so it has no observer and never acquires a
context. -/
def createInvalidInstance : Provider :=
  { context := none, hasObserver := false }

/-- Embedding of `ServiceWorkerNetworkProviderForFrame::WillSendRequest`:
injects the frame's fetch window id when a context exists, and leaves the
request unchanged otherwise. -/
def willSendRequest (p : Provider) (request : WebURLRequest) : WebURLRequest :=
  match p.context with
  | some ctx => { request with fetchWindowId := some ctx.fetchRequestWindowId }
  | none => request

/-- Embedding of `ServiceWorkerNetworkProviderForFrame::CreateURLLoader`:
returns null when there is no current `RenderThreadImpl`, no context or no
subresource loader factory, when the URL scheme is not eligible for service
workers, or when the request asks to skip the service worker; otherwise it
builds a `WebURLLoaderImpl` over the context's subresource loader factory. -/
def createURLLoader (p : Provider) (renderThreadCurrent : Bool)
    (request : WebURLRequest) : Option WebURLLoader :=
  if ! renderThreadCurrent then none
  else
    match p.context with
    | none => none
    | some ctx =>
      if ! ctx.hasSubresourceLoaderFactory then none
      else if ! request.schemeIsHTTPOrHTTPS
          && ! request.originCanAccessServiceWorkers then none
      else if request.skipServiceWorker then none
      else some { usesSubresourceLoaderFactory := true }

/-- Embedding of
`ServiceWorkerNetworkProviderForFrame::GetControllerServiceWorkerMode`. -/
def getControllerServiceWorkerMode (p : Provider) : ControllerServiceWorkerMode :=
  match p.context with
  | none => .kNoController
  | some ctx => ctx.controllerMode

/-- Embedding of
`ServiceWorkerNetworkProviderForFrame::ControllerServiceWorkerID`. -/
def controllerServiceWorkerID (p : Provider) : Int :=
  match p.context with
  | none => kInvalidServiceWorkerVersionId
  | some ctx => ctx.controllerVersionId

/-- Embedding of
`ServiceWorkerNetworkProviderForFrame::TakePendingWorkerTimingReceiver`:
`none` models the empty (`{}`) message pipe handle returned when there is no
context. -/
def takePendingWorkerTimingReceiver (p : Provider) (requestId : Int) :
    Option Nat :=
  match p.context with
  | none => none
  | some ctx => ctx.pendingWorkerTimingReceivers requestId

/-- Embedding of
`ServiceWorkerNetworkProviderForFrame::DispatchNetworkQuiet`: forwards into
the context when one exists; the returned list is the calls made into the
context. -/
def dispatchNetworkQuiet (p : Provider) : List ContextCall :=
  match p.context with
  | none => []
  | some _ => [ContextCall.dispatchNetworkQuiet]

end SWNetProvider

namespace ChildThread

/-- An IPC message, reduced to the routing id that `MessageRouter` keys
on. -/
structure IPCMessage where
  routingId : Int
  deriving DecidableEq, Repr

/-- Modelled from the spec: the `ChildThreadMessageRouter` held in
`ChildThreadImpl::router_` (child_thread_impl.h declares the class; its
method bodies are not in the excerpts).  Modelled as the set of routing ids
with a registered listener. -/
structure MessageRouter where
  routes : List Int
  deriving DecidableEq, Repr

/-- Modelled from the spec: the state of a `ChildThreadImpl` that the header
documents — the channel-error flag `on_channel_error_called_` ("The
OnChannelError() callback was invoked - the channel is dead, don't attempt
to communicate"), the router, and the messages actually handed to the
channel. -/
structure ChildThreadState where
  onChannelErrorCalled : Bool
  router : MessageRouter
  transmitted : List IPCMessage

/-- Modelled from the spec: `ChildThreadImpl::OnChannelError` records that
the channel is dead. -/
def onChannelError (st : ChildThreadState) : ChildThreadState :=
  { st with onChannelErrorCalled := true }

/-- Modelled from the spec: `ChildThreadImpl::Send` (the `IPC::Sender`
implementation).  Once the channel is dead no communication is attempted:
the message is dropped and `false` is returned; otherwise the message is
handed to the channel and `true` is returned. -/
def send (st : ChildThreadState) (msg : IPCMessage) : ChildThreadState × Bool :=
  if st.onChannelErrorCalled then (st, false)
  else ({ st with transmitted := st.transmitted ++ [msg] }, true)

/-- Modelled from the spec: `ChildThreadImpl::GetRouter` returns the message
router implementing routing for the thread's consumers. -/
def getRouter (st : ChildThreadState) : MessageRouter :=
  st.router

/-- Modelled from the spec: `IPC::MessageRouter::RouteMessage` — a message
is routed iff a listener is registered for its routing id. -/
def routeMessage (router : MessageRouter) (msg : IPCMessage) : Bool :=
  router.routes.contains msg.routingId

/-- Modelled from the spec: `ChildThreadImpl::OnMessageReceived` (the
`IPC::Listener` implementation) gives `OnControlMessageReceived` the first
chance and otherwise routes the message through the router. -/
def onMessageReceived (st : ChildThreadState)
    (controlMessageHandled : Bool) (msg : IPCMessage) : Bool :=
  if controlMessageHandled then true else routeMessage st.router msg

end ChildThread

namespace CookieStore

/-- The `network::mojom::CookieMatchType` enum used by cookie change
subscriptions. -/
inductive CookieMatchType where
  | EQUALS
  | STARTS_WITH
  deriving DecidableEq, Repr

/-- A URL reduced to the parts the subscription manager inspects: its origin
and its path. -/
structure SubURL where
  origin : String
  path : String
  deriving DecidableEq, Repr

/-- The `blink::mojom::CookieChangeSubscription` fields: cookie name, match
type and subscription URL. -/
structure CookieChangeSubscription where
  name : String
  matchType : CookieMatchType
  url : SubURL
  deriving DecidableEq, Repr

/-- A live service worker registration, reduced to its id and origin. -/
structure Registration where
  id : Int
  origin : String
  deriving DecidableEq, Repr

/-- Modelled from the spec: the state of the cookie-store subscription
manager — "a thin CRUD-like filter over an externally-owned cookie engine".
It keeps, per service worker registration id, the list of cookie change
subscriptions. -/
structure ManagerState where
  registrations : List Registration
  subscriptions : Int → List CookieChangeSubscription

/-- The registration a call refers to, when it exists. -/
def findRegistration (st : ManagerState) (registrationId : Int) :
    Option Registration :=
  st.registrations.find? (fun r => r.id = registrationId)

/-- A manager with the given registrations and no subscriptions. -/
def initialState (registrations : List Registration) : ManagerState :=
  { registrations := registrations, subscriptions := fun _ => [] }

/-- Modelled from the spec: `CookieStoreManager::AddSubscriptions`.  The call
fails (reporting `false` and changing nothing) when the registration id is
unknown or a subscription URL is not same-origin with the registration — the
unit tests `AddSubscriptions_NonexistentRegistrationId` and
`AddSubscriptions_WrongScopeOrigin` pin this down; on success the
subscriptions are appended to the registration's list. -/
def addSubscriptions (st : ManagerState) (registrationId : Int)
    (subs : List CookieChangeSubscription) : Bool × ManagerState :=
  match findRegistration st registrationId with
  | none => (false, st)
  | some reg =>
    if subs.all (fun s => s.url.origin = reg.origin) then
      (true,
        { st with
            subscriptions := fun i =>
              if i = registrationId then st.subscriptions i ++ subs
              else st.subscriptions i })
    else (false, st)

/-- Modelled from the spec: `CookieStoreManager::RemoveSubscriptions`.
Subscriptions equal to one of the given ones are removed from the
registration's list; removing a subscription that is not present succeeds
and leaves the rest (unit test `RemoveSubscriptions_OneNonexistingSubscription`). -/
def removeSubscriptions (st : ManagerState) (registrationId : Int)
    (subs : List CookieChangeSubscription) : Bool × ManagerState :=
  match findRegistration st registrationId with
  | none => (false, st)
  | some _ =>
    (true,
      { st with
          subscriptions := fun i =>
            if i = registrationId then
              (st.subscriptions i).filter (fun s => ! subs.contains s)
            else st.subscriptions i })

/-- Modelled from the spec: `CookieStoreManager::GetSubscriptions` returns
the registration's current subscription list (`none` models the failure
callback for an unknown registration). -/
def getSubscriptions (st : ManagerState) (registrationId : Int) :
    Option (List CookieChangeSubscription) :=
  match findRegistration st registrationId with
  | none => none
  | some _ => some (st.subscriptions registrationId)

/-- A call into the subscription manager, for reasoning over call traces. -/
inductive ManagerOp where
  | add (registrationId : Int) (subs : List CookieChangeSubscription)
  | remove (registrationId : Int) (subs : List CookieChangeSubscription)

/-- Applies one call, discarding the success bit. -/
def applyOp (st : ManagerState) : ManagerOp → ManagerState
  | .add registrationId subs => (addSubscriptions st registrationId subs).2
  | .remove registrationId subs => (removeSubscriptions st registrationId subs).2

/-- Applies a trace of calls in order. -/
def applyTrace (st : ManagerState) : List ManagerOp → ManagerState
  | [] => st
  | op :: rest => applyTrace (applyOp st op) rest

/-- The claim's description of the store content, written from the spec
sentence rather than from the model: the subscriptions previously added for
the registration by a successful `AddSubscriptions` call and not since
removed by `RemoveSubscriptions`. -/
def claimedSubscriptions (st : ManagerState) (registrationId : Int)
    (acc : List CookieChangeSubscription) :
    List ManagerOp → List CookieChangeSubscription
  | [] => acc
  | .add i subs :: rest =>
    let r := addSubscriptions st i subs
    claimedSubscriptions r.2 registrationId
      (if r.1 && i = registrationId then acc ++ subs else acc) rest
  | .remove i subs :: rest =>
    let r := removeSubscriptions st i subs
    claimedSubscriptions r.2 registrationId
      (if r.1 && i = registrationId then acc.filter (fun s => ! subs.contains s)
       else acc) rest

end CookieStore

open DevToolsBSC in
/-- C3 - Recording state machine of the DevTools background-services
context: `StartRecording` sets the service's expiration time to now plus
exactly 3 days and makes `IsRecording` return true; `StopRecording` sets the
expiration time to the null time and makes `IsRecording` return false; and
`LogBackgroundServiceEventOnCoreThread` persists an event only when
`IsRecording` is true and the expiration time has not passed — when the
window has expired it stops recording instead of storing the event. -/
theorem devtoolsRecordingStateMachine (st : ContextState) (now : Nat)
    (p : ProtoBackgroundService) (svc : DevToolsBackgroundService)
    (guid : String) (regId : Nat) (origin eventName instanceId : String)
    (metadata : List (String × String)) :
    ((startRecording st now p).1.expirationTimes p =
        now + threeDaysInMicroseconds ∧
      isRecording (startRecording st now p).1 p = true) ∧
    ((stopRecording st p).1.expirationTimes p = 0 ∧
      isRecording (stopRecording st p).1 p = false) ∧
    ((logBackgroundServiceEventOnCoreThread st now guid regId origin svc
          eventName instanceId metadata).1.userData ≠ st.userData →
      isRecording st (serviceToProtoEnum svc) = true ∧
        isRecordingExpired st (serviceToProtoEnum svc) now = false) ∧
    (isRecording st (serviceToProtoEnum svc) = true →
      isRecordingExpired st (serviceToProtoEnum svc) now = true →
      logBackgroundServiceEventOnCoreThread st now guid regId origin svc
          eventName instanceId metadata =
        stopRecording st (serviceToProtoEnum svc)) := by
  refine ⟨⟨?_, ?_⟩, ⟨?_, ?_⟩, ?_, ?_⟩
  · simp [startRecording]
  · simp [startRecording, isRecording, timeIsNull, threeDaysInMicroseconds]
  · simp [stopRecording]
  · simp [stopRecording, isRecording, timeIsNull]
  · intro hchanged
    by_cases hrec : isRecording st (serviceToProtoEnum svc) = true
    · by_cases hexp :
          isRecordingExpired st (serviceToProtoEnum svc) now = true
      · exfalso
        apply hchanged
        simp [logBackgroundServiceEventOnCoreThread, hrec, hexp,
          onRecordingTimeExpired, stopRecording]
      · exact ⟨hrec, by simpa using hexp⟩
    · exfalso
      apply hchanged
      simp [Bool.not_eq_true] at hrec
      simp [logBackgroundServiceEventOnCoreThread, hrec]
  · intro hrec hexp
    simp [logBackgroundServiceEventOnCoreThread, hrec, hexp,
      onRecordingTimeExpired]

open DevToolsBSC in
/-- C4 - `GetLoggedBackgroundServiceEvents` postcondition, through
`DidGetUserData`: the callback always receives a vector of events sorted in
nondecreasing timestamp order, and it receives the empty vector whenever the
storage read completes with a status other than `kOk` or any stored row
fails to parse as a `BackgroundServiceEvent` message. -/
theorem didGetUserDataPostcondition (userData : List (Nat × StoredValue))
    (status : ServiceWorkerStatusCode) :
    List.Sorted timestampLE (didGetUserData userData status) ∧
    (status ≠ ServiceWorkerStatusCode.kOk →
      didGetUserData userData status = []) ∧
    ((∃ d ∈ userData, parseFromString d.2 = none) →
      didGetUserData userData status = []) := by
  refine ⟨?_, ?_, ?_⟩
  · unfold didGetUserData
    split
    · exact List.sorted_nil
    · cases hp : parseAllEntries userData with
      | none => exact List.sorted_nil
      | some events => exact List.sorted_insertionSort timestampLE events
  · intro hne
    simp [didGetUserData, hne]
  · intro ⟨d, hmem, hparse⟩
    have hnone : parseAllEntries userData = none := by
      induction userData with
      | nil => cases hmem
      | cons hd tl ih =>
        cases hmem with
        | head => simp [parseAllEntries, hparse]
        | tail _ htl =>
          unfold parseAllEntries
          rw [ih htl]
          cases parseFromString hd.2 <;> rfl
    simp [didGetUserData, hnone]

open DevToolsBSC in
/-- C2 - DevTools event logging round trip: with recording active and
unexpired for the service, `LogBackgroundServiceEvent` (through its
core-thread body) stores exactly one serialized event whose timestamp,
origin, service worker registration id, background service, event name,
instance id and metadata fields equal the logged values; and when the store
held no prior rows for that service, a subsequent
`GetLoggedBackgroundServiceEvents` for the service returns exactly that
event. -/
theorem logBackgroundServiceEventRoundTrip (st : ContextState) (now : Nat)
    (guid : String) (regId : Nat) (origin : String)
    (svc : DevToolsBackgroundService) (eventName instanceId : String)
    (metadata : List (String × String))
    (hrec : isRecording st (serviceToProtoEnum svc) = true)
    (hexp : isRecordingExpired st (serviceToProtoEnum svc) now = false)
    (hfresh : getUserDataForAllRegistrationsByKeyStem st
        (createEntryKeyStem (serviceToProtoEnum svc)) = []) :
    (logBackgroundServiceEventOnCoreThread st now guid regId origin svc
        eventName instanceId metadata).1.userData =
      st.userData ++
        [⟨regId, createEntryKey (serviceToProtoEnum svc) guid,
          serializeAsString
            ⟨now, origin, regId, serviceToProtoEnum svc, eventName,
              instanceId, metadata⟩⟩] ∧
    getLoggedBackgroundServiceEvents
        (logBackgroundServiceEventOnCoreThread st now guid regId origin svc
          eventName instanceId metadata).1 (serviceToProtoEnum svc) =
      [⟨now, origin, regId, serviceToProtoEnum svc, eventName, instanceId,
        metadata⟩] := by
  have hlog :
      (logBackgroundServiceEventOnCoreThread st now guid regId origin svc
        eventName instanceId metadata).1.userData =
      st.userData ++
        [⟨regId, createEntryKey (serviceToProtoEnum svc) guid,
          serializeAsString
            ⟨now, origin, regId, serviceToProtoEnum svc, eventName,
              instanceId, metadata⟩⟩] := by
    simp [logBackgroundServiceEventOnCoreThread, hrec, hexp,
      storeRegistrationUserData]
  refine ⟨hlog, ?_⟩
  have hfilter : st.userData.filter
      (fun e => strStartsWith e.key
        (createEntryKeyStem (serviceToProtoEnum svc))) = [] := by
    have := hfresh
    unfold getUserDataForAllRegistrationsByKeyStem at this
    exact List.map_eq_nil_iff.mp this
  unfold getLoggedBackgroundServiceEvents
  unfold getUserDataForAllRegistrationsByKeyStem
  rw [hlog]
  rw [List.filter_append, hfilter]
  have hkey : strStartsWith (createEntryKey (serviceToProtoEnum svc) guid)
      (createEntryKeyStem (serviceToProtoEnum svc)) = true := by
    unfold createEntryKey
    exact strStartsWith_append _ _
  simp only [List.nil_append, List.filter_cons, hkey, List.filter_nil,
    if_true, List.map_cons, List.map_nil]
  simp [didGetUserData, parseAllEntries, parseFromString, serializeAsString,
    List.insertionSort]

open DevToolsBSC in
/-- Witness for the C2 round trip at a concrete input: a state recording
background fetch with expiration 100, at time 50, one logged event. -/
theorem logBackgroundServiceEventRoundTrip_witness :
    (isRecording (ContextState.mk (fun _ => 100) [])
        (serviceToProtoEnum .kBackgroundFetch) = true ∧
      isRecordingExpired (ContextState.mk (fun _ => 100) [])
        (serviceToProtoEnum .kBackgroundFetch) 50 = false ∧
      getUserDataForAllRegistrationsByKeyStem (ContextState.mk (fun _ => 100) [])
        (createEntryKeyStem (serviceToProtoEnum .kBackgroundFetch)) = []) ∧
    ((logBackgroundServiceEventOnCoreThread (ContextState.mk (fun _ => 100) [])
        50 "guid-1" 7 "https://example.com/" .kBackgroundFetch "BackgroundFetchEvent"
        "instance-1" [("k", "v")]).1.userData =
      [] ++
        [⟨7, createEntryKey (serviceToProtoEnum .kBackgroundFetch) "guid-1",
          serializeAsString
            ⟨50, "https://example.com/", 7,
              serviceToProtoEnum .kBackgroundFetch, "BackgroundFetchEvent",
              "instance-1", [("k", "v")]⟩⟩] ∧
      getLoggedBackgroundServiceEvents
          (logBackgroundServiceEventOnCoreThread
            (ContextState.mk (fun _ => 100) []) 50 "guid-1" 7
            "https://example.com/" .kBackgroundFetch "BackgroundFetchEvent"
            "instance-1" [("k", "v")]).1
          (serviceToProtoEnum .kBackgroundFetch) =
        [⟨50, "https://example.com/", 7, serviceToProtoEnum .kBackgroundFetch,
          "BackgroundFetchEvent", "instance-1", [("k", "v")]⟩]) :=
  ⟨⟨rfl, rfl, rfl⟩,
    logBackgroundServiceEventRoundTrip (ContextState.mk (fun _ => 100) []) 50
      "guid-1" 7 "https://example.com/" .kBackgroundFetch
      "BackgroundFetchEvent" "instance-1" [("k", "v")] rfl rfl rfl⟩

open DevToolsBSC IDB in
/-- C9 - Thread and sequence affinity asserted by the code: the recording
mutations and observer notifications of the DevTools background-services
context (`StartRecording`, `StopRecording`, `NotifyEventObservers`) assert
the UI thread, every operation touching the persisted-event store asserts
the service worker core thread, and every IndexedDB dispatcher-host method
asserts the IDB sequence. -/
theorem threadSequenceAffinity :
    dcheckCurrentlyOn ContextOp.startRecording = ChromeThread.ui ∧
    dcheckCurrentlyOn ContextOp.stopRecording = ChromeThread.ui ∧
    dcheckCurrentlyOn ContextOp.notifyEventObservers = ChromeThread.ui ∧
    (∀ op : ContextOp, touchesEventStorage op = true →
      dcheckCurrentlyOn op = ChromeThread.serviceWorkerCore) ∧
    (∀ op : DispatcherHostOp,
      dispatcherHostSequence op = ChromeThread.idbSequence) := by
  refine ⟨rfl, rfl, rfl, ?_, ?_⟩
  · intro op h
    cases op <;> first | rfl | cases h
  · intro op
    rfl

open IDB in
/-- C7 - IndexedDB dispatch status translation: `GetIndexedDBStatus` is a
total mapping from leveldb statuses to mojo IDB statuses sending ok to OK,
not-found to NotFound, corruption to Corruption, not-supported to
NotSupported, invalid-argument to InvalidArgument, and every other status
to IOError; the `AbortTransactionsAndCompactDatabase` and
`AbortTransactionsForDatabase` callbacks report their result through exactly
this mapping. -/
theorem getIndexedDBStatusMapping :
    getIndexedDBStatus LevelDBStatus.kOk = IDBStatus.OK ∧
    getIndexedDBStatus LevelDBStatus.kNotFound = IDBStatus.NotFound ∧
    getIndexedDBStatus LevelDBStatus.kCorruption = IDBStatus.Corruption ∧
    getIndexedDBStatus LevelDBStatus.kNotSupported = IDBStatus.NotSupported ∧
    getIndexedDBStatus LevelDBStatus.kInvalidArgument =
      IDBStatus.InvalidArgument ∧
    (∀ s : LevelDBStatus, s.ok = false → s.isNotFound = false →
      s.isCorruption = false → s.isNotSupportedError = false →
      s.isInvalidArgument = false → getIndexedDBStatus s = IDBStatus.IOError) ∧
    (∀ s : LevelDBStatus,
      callCompactionStatusCallbackOnIDBThread s = getIndexedDBStatus s) ∧
    (∀ s : LevelDBStatus,
      callAbortStatusCallbackOnIDBThread s = getIndexedDBStatus s) := by
  refine ⟨rfl, rfl, rfl, rfl, rfl, ?_, fun s => rfl, fun s => rfl⟩
  intro s h1 h2 h3 h4 h5
  simp [getIndexedDBStatus, h1, h2, h3, h4, h5]

open IDB in
/-- C5 counterexample - the `BlobDataItemReader` implementation in the
excerpts is `IndexedDBDataItemReader`; the blob data item it is bound to by
`IndexedDBDispatcherHost::CreateAllExternalObjects` carries the IndexedDB
type tag, not the cache-storage one, already on this concrete external
object. -/
theorem blobReaderNotCacheStorage :
    (createBlobDataItem
        ⟨ExternalObjectType.kBlob, 10, "text/plain", false, "",
          "/idb/blobs/1.blob", 0⟩).itemType ≠
      BlobDataItemType.kCacheStorage := by
  decide

open IDB in
/-- C5 (amended) - the blob-streaming `BlobDataItemReader` implementation in
the excerpts belongs to the IndexedDB subsystem: every blob data item built
by `IndexedDBDispatcherHost::CreateAllExternalObjects` for a blob without a
live remote is tagged `BlobDataItemType::kIndexedDB`, has no side data, and
its reader streams the object's IndexedDB file. -/
theorem blobReaderServesIndexedDB (blobInfo : IndexedDBExternalObject) :
    (createBlobDataItem blobInfo).itemType = BlobDataItemType.kIndexedDB ∧
    (createBlobDataItem blobInfo).sideDataSize = 0 ∧
    (createBlobDataItem blobInfo).readerFilePath =
      blobInfo.indexedDBFilePath := by
  exact ⟨rfl, rfl, rfl⟩

open SWNetProvider in
/-- C8 - Invalid-instance inertness of the service worker network provider
for frames: an instance from `CreateInvalidInstance` has no context, so
`CreateURLLoader` returns null for every request,
`GetControllerServiceWorkerMode` returns `kNoController`,
`ControllerServiceWorkerID` returns `kInvalidServiceWorkerVersionId`,
`TakePendingWorkerTimingReceiver` returns an empty pipe handle for every
request id, and `WillSendRequest` and `DispatchNetworkQuiet` leave the
request and the state unchanged. -/
theorem invalidInstanceInert :
    (∀ (renderThreadCurrent : Bool) (request : WebURLRequest),
      createURLLoader createInvalidInstance renderThreadCurrent request =
        none) ∧
    getControllerServiceWorkerMode createInvalidInstance =
      ControllerServiceWorkerMode.kNoController ∧
    controllerServiceWorkerID createInvalidInstance =
      kInvalidServiceWorkerVersionId ∧
    (∀ requestId : Int,
      takePendingWorkerTimingReceiver createInvalidInstance requestId =
        none) ∧
    (∀ request : WebURLRequest,
      willSendRequest createInvalidInstance request = request) ∧
    dispatchNetworkQuiet createInvalidInstance = [] := by
  refine ⟨?_, rfl, rfl, fun _ => rfl, fun _ => rfl, rfl⟩
  intro renderThreadCurrent request
  cases renderThreadCurrent <;> rfl

open ChildThread in
/-- C10 - The child-process thread base class: `ChildThreadImpl` implements
IPC sending (`Send`), routing (`GetRouter` and `OnMessageReceived` through
the router), and channel-error tracking — after `OnChannelError` the channel
is recorded dead and `Send` attempts no further communication, returning
false and transmitting nothing. -/
theorem childThreadChannelErrorStopsSending (st : ChildThreadState)
    (msg : IPCMessage) :
    (onChannelError st).onChannelErrorCalled = true ∧
    send (onChannelError st) msg = (onChannelError st, false) ∧
    (send (onChannelError st) msg).1.transmitted = st.transmitted ∧
    getRouter st = st.router ∧
    (∀ (controlMessageHandled : Bool) (m : IPCMessage),
      onMessageReceived st controlMessageHandled m =
        (controlMessageHandled || routeMessage st.router m)) := by
  refine ⟨rfl, ?_, ?_, rfl, ?_⟩
  · simp [send, onChannelError]
  · simp [send, onChannelError]
  · intro controlMessageHandled m
    cases controlMessageHandled <;> simp [onMessageReceived]

theorem strStartsWith_gen_of_tmp (r : String) :
    strStartsWith ("file:///tmp/web_tests/" ++ r) "file:///gen/" = false := by
  cases r with
  | mk rd =>
    rw [strStartsWith, strData_append]
    by_contra h
    simp only [Bool.not_eq_false, List.isPrefixOf_iff_prefix] at h
    obtain ⟨t, ht⟩ := h
    have h8 := congrArg (fun l : List Char => l[8]?) ht
    simp [List.getElem?_append] at h8

open WebTestHelpers in
/-- C6 - Web-test helper URL rewriting with `is_wpt_mode` false: an input
starting with `file:///tmp/web_tests/` is rewritten to a file URL into the
checked-in `third_party/blink/web_tests/` directory (the prefix replaced by
that path), an input starting with `file:///gen/` is rewritten to a file URL
under the build directory's `gen/` subdirectory, and any other input is
returned unchanged. -/
theorem rewriteWebTestsURLCases (sourceRoot buildDir url rest : String) :
    (url = "file:///tmp/web_tests/" ++ rest →
      rewriteWebTestsURL sourceRoot buildDir url false =
        "file://" ++ getWebTestsFilePath sourceRoot ++ rest) ∧
    (url = "file:///gen/" ++ rest →
      rewriteWebTestsURL sourceRoot buildDir url false =
        "file://" ++ filePathAppend buildDir "gen/" ++ rest) ∧
    (strStartsWith url "file:///tmp/web_tests/" = false →
      strStartsWith url "file:///gen/" = false →
      rewriteWebTestsURL sourceRoot buildDir url false = url) := by
  refine ⟨?_, ?_, ?_⟩
  · intro hurl
    subst hurl
    rw [rewriteWebTestsURL]
    rw [if_neg (by simp), if_neg (by simp [strStartsWith_gen_of_tmp])]
    rw [if_neg (by simp [strStartsWith_append])]
    rw [strDropBytes_append]
  · intro hurl
    subst hurl
    rw [rewriteWebTestsURL]
    rw [if_neg (by simp), if_pos (strStartsWith_append _ _)]
    rw [strDropBytes_append]
  · intro htmp hgen
    rw [rewriteWebTestsURL]
    rw [if_neg (by simp), if_neg (by simp [hgen]), if_pos (by simp [htmp])]

namespace CookieStore

theorem applyOp_registrations (st : ManagerState) (op : ManagerOp) :
    (applyOp st op).registrations = st.registrations := by
  cases op with
  | add i subs =>
    dsimp only [applyOp, addSubscriptions]
    cases findRegistration st i with
    | none => rfl
    | some reg =>
      dsimp only
      split <;> rfl
  | remove i subs =>
    dsimp only [applyOp, removeSubscriptions]
    cases findRegistration st i with
    | none => rfl
    | some reg => rfl

theorem applyOp_findRegistration (st : ManagerState) (op : ManagerOp)
    (r : Int) : findRegistration (applyOp st op) r = findRegistration st r := by
  unfold findRegistration
  rw [applyOp_registrations]

theorem applyOp_subscriptions (st : ManagerState) (op : ManagerOp) (r : Int) :
    (applyOp st op).subscriptions r =
      match op with
      | .add i subs =>
        if (addSubscriptions st i subs).1 && i = r then
          st.subscriptions r ++ subs
        else st.subscriptions r
      | .remove i subs =>
        if (removeSubscriptions st i subs).1 && i = r then
          (st.subscriptions r).filter (fun s => ! subs.contains s)
        else st.subscriptions r := by
  cases op with
  | add i subs =>
    dsimp only [applyOp, addSubscriptions]
    cases hfind : findRegistration st i with
    | none => simp
    | some reg =>
      dsimp only
      by_cases hall : subs.all (fun s => s.url.origin = reg.origin) = true
      · rw [if_pos hall]
        by_cases hir : i = r
        · subst hir
          simp
        · have hri : ¬ r = i := fun hh => hir hh.symm
          simp [hir, hri]
      · rw [if_neg hall]
        simp
  | remove i subs =>
    dsimp only [applyOp, removeSubscriptions]
    cases hfind : findRegistration st i with
    | none => simp
    | some reg =>
      dsimp only
      by_cases hir : i = r
      · subst hir
        simp
      · have hri : ¬ r = i := fun hh => hir hh.symm
        simp [hir, hri]

theorem applyTrace_claimedSubscriptions (ops : List ManagerOp) :
    ∀ (st : ManagerState) (r : Int),
      (findRegistration st r).isSome = true →
      getSubscriptions (applyTrace st ops) r =
        some (claimedSubscriptions st r (st.subscriptions r) ops) := by
  induction ops with
  | nil =>
    intro st r hfound
    obtain ⟨reg, hreg⟩ := Option.isSome_iff_exists.mp hfound
    simp [applyTrace, getSubscriptions, hreg, claimedSubscriptions]
  | cons op rest ih =>
    intro st r hfound
    have hstep : applyTrace st (op :: rest) = applyTrace (applyOp st op) rest := by
      cases op <;> rfl
    rw [hstep]
    have hfound2 : (findRegistration (applyOp st op) r).isSome = true := by
      rw [applyOp_findRegistration]; exact hfound
    rw [ih (applyOp st op) r hfound2]
    cases op with
    | add i subs =>
      have hsubs := applyOp_subscriptions st (ManagerOp.add i subs) r
      dsimp only at hsubs
      rw [hsubs]
      rfl
    | remove i subs =>
      have hsubs := applyOp_subscriptions st (ManagerOp.remove i subs) r
      dsimp only at hsubs
      rw [hsubs]
      rfl

end CookieStore

open CookieStore in
/-- C1 - The cookie-store subscription manager is a thin CRUD-like filter:
for every service worker registration id, `GetSubscriptions` returns exactly
the subscriptions added by successful `AddSubscriptions` calls and not since
removed by `RemoveSubscriptions`; with no prior additions it returns an
empty list; and after adding one subscription with a given name, match type
and URL it returns a one-element list with exactly those field values. -/
theorem cookieStoreSubscriptionsCRUD (regs : List Registration)
    (st : ManagerState) (r : Int) (reg : Registration)
    (s : CookieChangeSubscription) (ops : List ManagerOp) :
    ((findRegistration (initialState regs) r).isSome = true →
      getSubscriptions (initialState regs) r = some []) ∧
    (findRegistration st r = some reg → st.subscriptions r = [] →
      s.url.origin = reg.origin →
      (addSubscriptions st r [s]).1 = true ∧
      getSubscriptions (addSubscriptions st r [s]).2 r =
        some [CookieChangeSubscription.mk s.name s.matchType s.url]) ∧
    ((findRegistration st r).isSome = true →
      getSubscriptions (applyTrace st ops) r =
        some (claimedSubscriptions st r (st.subscriptions r) ops)) := by
  refine ⟨?_, ?_, ?_⟩
  · intro hfound
    obtain ⟨rg, hrg⟩ := Option.isSome_iff_exists.mp hfound
    unfold getSubscriptions
    rw [hrg]
    rfl
  · intro hfind hempty horigin
    have hadd : addSubscriptions st r [s] =
        (true,
          { st with
              subscriptions := fun i =>
                if i = r then st.subscriptions i ++ [s]
                else st.subscriptions i }) := by
      rw [addSubscriptions, hfind]
      simp [horigin]
    refine ⟨by rw [hadd], ?_⟩
    rw [hadd]
    have hfind2 : findRegistration
        { st with
            subscriptions := fun i =>
              if i = r then st.subscriptions i ++ [s]
              else st.subscriptions i } r = some reg := hfind
    rw [getSubscriptions, hfind2]
    simp [hempty]
  · exact applyTrace_claimedSubscriptions ops st r
